import Mathlib

/-!
Shallow embedding of the kids-math-game core (src/src/App.js).

The React component holds state in `useState` hooks: `score`, `timeLeft`,
`currentProblem`, `message`, `isGameOver`, `gameStarted`, `problemType`.
We model that state as a structure and the event handlers as pure state
transformers.  Randomness (the two `Math.random()` operand draws and the
operator pick in `generateProblem`) is passed in explicitly: the two raw
operands `num1 num2` and an arbitrary natural `opIdx` reduced modulo the
length of the allowed-operator list, exactly the range
`Math.floor(Math.random() * operators.length)` produces.

The one-second interval created by the `useEffect` at App.js:21 exists
exactly while `gameStarted && !isGameOver`; the effect clears it otherwise,
so a tick event is delivered only in that phase.  `tick` below is the
interval callback body (App.js:29-40) guarded by that condition.
-/

/-- The four arithmetic operators of the game (the JS strings
    `'+'`, `'-'`, `'*'`, `'/'`). -/
inductive Op where
  | add
  | sub
  | mul
  | div
deriving DecidableEq, Repr

/-- The problem-type selector (the JS strings `'addition'`, `'subtraction'`,
    `'multiplication'`, `'division'`, `'random'`); App.js:13. -/
inductive ProblemType where
  | addition
  | subtraction
  | multiplication
  | division
  | random
deriving DecidableEq, Repr

/-- A generated problem, App.js:113: `{ num1, num2, operator, answer }`. -/
structure Problem where
  num1 : Int
  num2 : Int
  operator : Op
  answer : Int
deriving DecidableEq, Repr

/-- The allowed-operator list built at App.js:76-80, in push order. -/
def operatorsFor (pt : ProblemType) : List Op :=
  (if pt = ProblemType.addition ∨ pt = ProblemType.random then [Op.add] else []) ++
  (if pt = ProblemType.subtraction ∨ pt = ProblemType.random then [Op.sub] else []) ++
  (if pt = ProblemType.multiplication ∨ pt = ProblemType.random then [Op.mul] else []) ++
  (if pt = ProblemType.division ∨ pt = ProblemType.random then [Op.div] else [])

/-- `generateProblem`, App.js:69-114.  The raw draws `num1 num2` stand for
    `Math.floor(Math.random() * 10) + 1`; `opIdx % length` stands for the
    in-range random operator index.  The JS `default` switch branch is
    unreachable (the selected operator is always one of the four), and the
    `getD` default plays the same fallback role. -/
def generateProblem (pt : ProblemType) (num1 num2 : Int) (opIdx : Nat) : Problem :=
  let ops := operatorsFor pt
  let operator := ops.getD (opIdx % ops.length) Op.add
  match operator with
  | Op.add => { num1 := num1, num2 := num2, operator := Op.add, answer := num1 + num2 }
  | Op.sub =>
      if num1 < num2 then
        { num1 := num2, num2 := num1, operator := Op.sub, answer := num2 - num1 }
      else
        { num1 := num1, num2 := num2, operator := Op.sub, answer := num1 - num2 }
  | Op.mul => { num1 := num1, num2 := num2, operator := Op.mul, answer := num1 * num2 }
  | Op.div =>
      let product := num1 * num2
      { num1 := product, num2 := num2, operator := Op.div, answer := product / num2 }

/-- Leading decimal digits of a character list (what `parseInt` consumes
    after the optional sign). -/
def takeDigits : List Char → List Char
  | [] => []
  | c :: cs => if c.isDigit then c :: takeDigits cs else []

/-- Numeric value of a digit run. -/
def digitsVal (ds : List Char) : Nat :=
  ds.foldl (fun acc c => acc * 10 + (c.toNat - 48)) 0

/-- Model of JavaScript `parseInt(s, 10)` (App.js:121): skip leading
    whitespace, read an optional sign and then the longest leading digit
    run; `none` models the `NaN` result when no digit is found. -/
def parseIntJS (s : String) : Option Int :=
  let cs := s.toList.dropWhile Char.isWhitespace
  match cs with
  | '-' :: r =>
      let ds := takeDigits r
      if ds.isEmpty then none else some (-(digitsVal ds : Int))
  | '+' :: r =>
      let ds := takeDigits r
      if ds.isEmpty then none else some (digitsVal ds : Int)
  | r =>
      let ds := takeDigits r
      if ds.isEmpty then none else some (digitsVal ds : Int)

/-- The message set on a correct answer, App.js:127. -/
def correctMessage : String := "Correct! +30s"

/-- The message set on an incorrect answer, App.js:130. -/
def incorrectMessage (answer : Int) : String :=
  "Incorrect! -10s. The answer was " ++ toString answer

/-- The component state: the `useState` hooks of App.js:6-13 (minus the
    input buffer `userAnswer`, which is passed to `handleAnswerSubmit` as
    the raw input argument). -/
structure GameState where
  score : Int
  timeLeft : Int
  currentProblem : Option Problem
  message : String
  isGameOver : Bool
  gameStarted : Bool
  problemType : ProblemType
deriving DecidableEq, Repr

/-- The three phases of the session; the rendering at App.js:180/233/278
    decodes them from the two flags. -/
inductive Phase where
  | idle
  | playing
  | over
deriving DecidableEq, Repr

/-- Phase decoding: the game-over screen shows when `isGameOver`, the play
    screen when `gameStarted && !isGameOver`, the start screen otherwise. -/
def GameState.phase (s : GameState) : Phase :=
  if s.isGameOver then Phase.over
  else if s.gameStarted then Phase.playing
  else Phase.idle

/-- The initial hook values, App.js:6-13. -/
def initState : GameState :=
  { score := 0
    timeLeft := 60
    currentProblem := none
    message := ""
    isGameOver := false
    gameStarted := false
    problemType := ProblemType.random }

/-- The interval callback of App.js:29-40, guarded by the effect condition
    `gameStarted && !isGameOver` under which the interval exists.  Note the
    callback sets the flags and clamps the time but does not touch
    `currentProblem`. -/
def tick (s : GameState) : GameState :=
  if s.gameStarted && !s.isGameOver then
    if s.timeLeft ≤ 1 then
      { s with timeLeft := 0, isGameOver := true, gameStarted := false }
    else
      { s with timeLeft := s.timeLeft - 1 }
  else s

/-- `handleAnswerSubmit`, App.js:117-139.  `rawInput` is the content of the
    `userAnswer` buffer at submit time; `n1 n2 k` are the random draws the
    embedded `generateProblem()` call consumes.  `parseInt` returning `NaN`
    is `none`, and `NaN === answer` is false, so an unparsable input falls
    into the incorrect branch exactly as in the JS. -/
def handleAnswerSubmit (s : GameState) (rawInput : String) (n1 n2 : Int) (k : Nat) : GameState :=
  match s.currentProblem with
  | none => s
  | some p =>
      if !s.gameStarted || s.isGameOver then s
      else
        let parsed := parseIntJS rawInput
        if parsed = some p.answer then
          { s with score := s.score + 1
                   timeLeft := s.timeLeft + 30
                   message := correctMessage
                   currentProblem := some (generateProblem s.problemType n1 n2 k) }
        else
          { s with timeLeft := max 0 (s.timeLeft - 10)
                   message := incorrectMessage p.answer
                   currentProblem := some (generateProblem s.problemType n1 n2 k) }

/-- `startGame`, App.js:142-154: reset the counters, raise `gameStarted`,
    and generate the first problem from the current `problemType`. -/
def startGame (s : GameState) (n1 n2 : Int) (k : Nat) : GameState :=
  { s with score := 0
           timeLeft := 60
           isGameOver := false
           gameStarted := true
           message := ""
           currentProblem := some (generateProblem s.problemType n1 n2 k) }

/-- `resetGame`, App.js:157-170. -/
def resetGame (s : GameState) : GameState :=
  { s with gameStarted := false
           isGameOver := false
           score := 0
           timeLeft := 60
           message := ""
           currentProblem := none }

/-- One user- or clock-triggered transition of the session. -/
inductive Step : GameState → GameState → Prop where
  | start (s : GameState) (n1 n2 : Int) (k : Nat) : Step s (startGame s n1 n2 k)
  | tick (s : GameState) : Step s (tick s)
  | submit (s : GameState) (raw : String) (n1 n2 : Int) (k : Nat) :
      Step s (handleAnswerSubmit s raw n1 n2 k)
  | reset (s : GameState) : Step s (resetGame s)

/-- States reachable from the initial state by the four transitions. -/
inductive Reachable : GameState → Prop where
  | init : Reachable initState
  | step {s s' : GameState} : Reachable s → Step s s' → Reachable s'

/-- Decoding the playing phase into the two flags. -/
theorem phase_playing_iff (s : GameState) :
    s.phase = Phase.playing ↔ s.gameStarted = true ∧ s.isGameOver = false := by
  unfold GameState.phase
  cases hO : s.isGameOver <;> cases hS : s.gameStarted <;> simp

/-- Decoding the idle phase into the two flags. -/
theorem phase_idle_iff (s : GameState) :
    s.phase = Phase.idle ↔ s.gameStarted = false ∧ s.isGameOver = false := by
  unfold GameState.phase
  cases hO : s.isGameOver <;> cases hS : s.gameStarted <;> simp

/-- Decoding the over phase into the game-over flag. -/
theorem phase_over_iff (s : GameState) :
    s.phase = Phase.over ↔ s.isGameOver = true := by
  unfold GameState.phase
  cases hO : s.isGameOver <;> cases hS : s.gameStarted <;> simp

/-- The state invariant the transitions actually preserve: the two flags
    are never both raised, a problem is present exactly when the session
    has started or ended, the over phase has a drained clock, and the idle
    phase shows the pre-game 60 seconds. -/
def StateInv (s : GameState) : Prop :=
  ¬(s.gameStarted = true ∧ s.isGameOver = true) ∧
  s.currentProblem.isSome = (s.gameStarted || s.isGameOver) ∧
  (s.isGameOver = true → s.timeLeft = 0) ∧
  (s.gameStarted = false → s.isGameOver = false → s.timeLeft = 60)

theorem inv_initState : StateInv initState := by
  refine ⟨?_, ?_, ?_, ?_⟩ <;> simp [initState]

theorem inv_startGame (s : GameState) (n1 n2 : Int) (k : Nat) :
    StateInv (startGame s n1 n2 k) := by
  refine ⟨?_, ?_, ?_, ?_⟩ <;> simp [startGame]

theorem inv_resetGame (s : GameState) : StateInv (resetGame s) := by
  refine ⟨?_, ?_, ?_, ?_⟩ <;> simp [resetGame]

theorem inv_tick {s : GameState} (h : StateInv s) : StateInv (tick s) := by
  obtain ⟨h1, h2, h3, h4⟩ := h
  unfold tick
  by_cases hg : (s.gameStarted && !s.isGameOver) = true
  · rw [if_pos hg]
    rw [Bool.and_eq_true, Bool.not_eq_true'] at hg
    by_cases ht : s.timeLeft ≤ 1
    · rw [if_pos ht]
      refine ⟨by simp, ?_, by simp, by simp⟩
      simpa [hg.1, hg.2] using h2
    · rw [if_neg ht]
      exact ⟨by simpa using h1, by simpa using h2, by simp [hg.2], by simp [hg.1]⟩
  · rw [if_neg hg]
    exact ⟨h1, h2, h3, h4⟩

theorem inv_handleAnswerSubmit {s : GameState} (h : StateInv s)
    (raw : String) (n1 n2 : Int) (k : Nat) :
    StateInv (handleAnswerSubmit s raw n1 n2 k) := by
  obtain ⟨h1, h2, h3, h4⟩ := h
  unfold handleAnswerSubmit
  split
  · exact ⟨h1, h2, h3, h4⟩
  · next p hp =>
    split
    · exact ⟨h1, h2, h3, h4⟩
    · next hg =>
      simp only [Bool.or_eq_true, Bool.not_eq_true', not_or, Bool.not_eq_false,
        Bool.not_eq_true] at hg
      obtain ⟨hS, hO⟩ := hg
      dsimp only
      split
      · exact ⟨by simp [hO], by simp [hS], by simp [hO], by simp [hS]⟩
      · exact ⟨by simp [hO], by simp [hS], by simp [hO], by simp [hS]⟩

theorem inv_step {s s' : GameState} (h : StateInv s) (hs : Step s s') : StateInv s' := by
  cases hs with
  | start n1 n2 k => exact inv_startGame s n1 n2 k
  | tick => exact inv_tick h
  | submit raw n1 n2 k => exact inv_handleAnswerSubmit h raw n1 n2 k
  | reset => exact inv_resetGame s

theorem reachable_inv {s : GameState} (h : Reachable s) : StateInv s := by
  induction h with
  | init => exact inv_initState
  | step _ hs ih => exact inv_step ih hs

/-- Unfolding lemma for a submit that hits the correct branch. -/
theorem handleAnswerSubmit_correct_eq (s : GameState) (p : Problem) (raw : String)
    (n1 n2 : Int) (k : Nat) (hp : s.currentProblem = some p)
    (hS : s.gameStarted = true) (hO : s.isGameOver = false)
    (hc : parseIntJS raw = some p.answer) :
    handleAnswerSubmit s raw n1 n2 k =
      { s with score := s.score + 1
               timeLeft := s.timeLeft + 30
               message := correctMessage
               currentProblem := some (generateProblem s.problemType n1 n2 k) } := by
  unfold handleAnswerSubmit
  rw [hp]
  simp [hS, hO, hc]

/-- Unfolding lemma for a submit that hits the incorrect branch (a parsed
    value different from the answer, or an unparsable input). -/
theorem handleAnswerSubmit_incorrect_eq (s : GameState) (p : Problem) (raw : String)
    (n1 n2 : Int) (k : Nat) (hp : s.currentProblem = some p)
    (hS : s.gameStarted = true) (hO : s.isGameOver = false)
    (hc : parseIntJS raw ≠ some p.answer) :
    handleAnswerSubmit s raw n1 n2 k =
      { s with timeLeft := max 0 (s.timeLeft - 10)
               message := incorrectMessage p.answer
               currentProblem := some (generateProblem s.problemType n1 n2 k) } := by
  unfold handleAnswerSubmit
  rw [hp]
  simp [hS, hO, hc]

/-- A concrete addition problem, 3 + 4 = 7. -/
def sampleProblem : Problem :=
  { num1 := 3, num2 := 4, operator := Op.add, answer := 7 }

/-- A concrete playing-phase state holding `sampleProblem` with `t` seconds
    on the clock. -/
def playingAt (t : Int) : GameState :=
  { score := 0
    timeLeft := t
    currentProblem := some sampleProblem
    message := ""
    isGameOver := false
    gameStarted := true
    problemType := ProblemType.random }

/-- The state right after `startGame` from the initial state, with operand
    draws 3 and 4 and operator index 0 (addition). -/
def play0 : GameState := startGame initState 3 4 0

/-- Submitting the wrong answer `"0"`, redrawing 3, 4 and index 0. -/
def wrongSubmit (s : GameState) : GameState := handleAnswerSubmit s "0" 3 4 0

/-- The state after six wrong answers in a row from a fresh start: the
    clock reads 0 yet the session is still in the playing phase. -/
def drained : GameState :=
  wrongSubmit (wrongSubmit (wrongSubmit (wrongSubmit (wrongSubmit (wrongSubmit play0)))))

theorem play0_reachable : Reachable play0 :=
  Reachable.init.step (Step.start initState 3 4 0)

theorem wrongSubmit_reachable {s : GameState} (h : Reachable s) :
    Reachable (wrongSubmit s) :=
  h.step (Step.submit s "0" 3 4 0)

theorem drained_reachable : Reachable drained :=
  wrongSubmit_reachable (wrongSubmit_reachable (wrongSubmit_reachable
    (wrongSubmit_reachable (wrongSubmit_reachable (wrongSubmit_reachable play0_reachable)))))

/-- C1, counterexample: in the concrete playing state with 5 seconds left,
    submitting the wrong answer "0" drains the clock to 0 and emits the
    incorrect feedback, yet leaves the session in the playing phase — the
    claimed immediate transition to the over phase does not happen in the
    same call. -/
theorem C1_counterexample :
    (playingAt 5).phase = Phase.playing ∧
    (playingAt 5).currentProblem = some sampleProblem ∧
    parseIntJS "0" = some 0 ∧ (0 : Int) ≠ sampleProblem.answer ∧
    (handleAnswerSubmit (playingAt 5) "0" 3 4 0).timeLeft = 0 ∧
    (handleAnswerSubmit (playingAt 5) "0" 3 4 0).message =
      incorrectMessage sampleProblem.answer ∧
    (handleAnswerSubmit (playingAt 5) "0" 3 4 0).phase ≠ Phase.over := by
  decide

/-- C1, amended: submitting a parsed answer different from the current
    problem's answer in the playing phase sets the clock to
    max(0, timeRemaining - 10) and emits the incorrect feedback, but the
    session stays in the playing phase in that same call even when the
    deduction drains the clock to 0; the transition to the over phase
    happens only at the next tick. -/
theorem C1_incorrect_submit (s : GameState) (p : Problem) (raw : String) (v : Int)
    (n1 n2 : Int) (k : Nat)
    (hp : s.currentProblem = some p) (hph : s.phase = Phase.playing)
    (hv : parseIntJS raw = some v) (hne : v ≠ p.answer) :
    (handleAnswerSubmit s raw n1 n2 k).timeLeft = max 0 (s.timeLeft - 10) ∧
    (handleAnswerSubmit s raw n1 n2 k).message = incorrectMessage p.answer ∧
    (handleAnswerSubmit s raw n1 n2 k).phase = Phase.playing ∧
    (s.timeLeft ≤ 10 →
      (handleAnswerSubmit s raw n1 n2 k).timeLeft = 0 ∧
      (tick (handleAnswerSubmit s raw n1 n2 k)).phase = Phase.over ∧
      (tick (handleAnswerSubmit s raw n1 n2 k)).timeLeft = 0) := by
  obtain ⟨hS, hO⟩ := (phase_playing_iff s).mp hph
  have hc : parseIntJS raw ≠ some p.answer := by
    rw [hv]
    intro hcontra
    exact hne (Option.some.inj hcontra)
  rw [handleAnswerSubmit_incorrect_eq s p raw n1 n2 k hp hS hO hc]
  refine ⟨rfl, rfl, (phase_playing_iff _).mpr ⟨hS, hO⟩, ?_⟩
  intro ht
  have h0 : max 0 (s.timeLeft - 10) = 0 := by omega
  refine ⟨h0, ?_, ?_⟩ <;> simp [tick, GameState.phase, hS, hO, h0]

theorem C1_incorrect_submit_witness :
    (handleAnswerSubmit (playingAt 5) "0" 3 4 0).timeLeft =
      max 0 ((playingAt 5).timeLeft - 10) ∧
    (handleAnswerSubmit (playingAt 5) "0" 3 4 0).message =
      incorrectMessage sampleProblem.answer ∧
    (handleAnswerSubmit (playingAt 5) "0" 3 4 0).phase = Phase.playing ∧
    ((playingAt 5).timeLeft ≤ 10 →
      (handleAnswerSubmit (playingAt 5) "0" 3 4 0).timeLeft = 0 ∧
      (tick (handleAnswerSubmit (playingAt 5) "0" 3 4 0)).phase = Phase.over ∧
      (tick (handleAnswerSubmit (playingAt 5) "0" 3 4 0)).timeLeft = 0) :=
  C1_incorrect_submit (playingAt 5) sampleProblem "0" 0 3 4 0 rfl (by decide)
    (by decide) (by decide)

/-- C2, counterexample: the state after a fresh start and six wrong answers
    is reachable, its clock reads 0, yet its phase is playing, not over. -/
theorem C2_counterexample :
    Reachable drained ∧ drained.timeLeft = 0 ∧ drained.phase = Phase.playing :=
  ⟨drained_reachable, by decide, by decide⟩

/-- C2, amended: in every reachable state a drained clock means the phase
    is over, or it is playing (reached by an incorrect submission) and the
    very next tick moves the session to the over phase with the clock still
    at 0. -/
theorem C2_time_zero (s : GameState) (h : Reachable s) (h0 : s.timeLeft = 0) :
    s.phase = Phase.over ∨
    (s.phase = Phase.playing ∧ (tick s).phase = Phase.over ∧
      (tick s).timeLeft = 0) := by
  obtain ⟨h1, h2, h3, h4⟩ := reachable_inv h
  cases hO : s.isGameOver with
  | true => exact Or.inl ((phase_over_iff s).mpr hO)
  | false =>
    cases hS : s.gameStarted with
    | false =>
      have h60 := h4 hS hO
      omega
    | true =>
      refine Or.inr ⟨(phase_playing_iff s).mpr ⟨hS, hO⟩, ?_, ?_⟩ <;>
        simp [tick, GameState.phase, hS, hO, h0]

theorem C2_time_zero_witness :
    drained.phase = Phase.over ∨
    (drained.phase = Phase.playing ∧ (tick drained).phase = Phase.over ∧
      (tick drained).timeLeft = 0) :=
  C2_time_zero drained drained_reachable (by decide)

/-- C3, counterexample: ticking the drained state reaches the over phase
    while `currentProblem` is still present — the timer callback never
    clears it. -/
theorem C3_counterexample :
    Reachable (tick drained) ∧ (tick drained).phase = Phase.over ∧
    (tick drained).currentProblem ≠ none :=
  ⟨drained_reachable.step (Step.tick drained), by decide, by decide⟩

/-- C3, amended: in every reachable state `currentProblem` is present if
    and only if the phase is playing or over; only the idle phase has no
    problem (a session that reaches the over phase keeps its last
    problem). -/
theorem C3_problem_presence (s : GameState) (h : Reachable s) :
    s.currentProblem.isSome = true ↔
      (s.phase = Phase.playing ∨ s.phase = Phase.over) := by
  obtain ⟨h1, h2, h3, h4⟩ := reachable_inv h
  rw [h2]
  cases hO : s.isGameOver <;> cases hS : s.gameStarted <;>
    simp [phase_playing_iff, phase_over_iff, hS, hO]

theorem C3_problem_presence_witness :
    initState.currentProblem.isSome = true ↔
      (initState.phase = Phase.playing ∨ initState.phase = Phase.over) :=
  C3_problem_presence initState Reachable.init

/-- C4, counterexample: ticking the concrete playing state with 1 second
    left gives the over phase with the clock at 0, but `currentProblem` is
    still present, not absent as the claim states. -/
theorem C4_counterexample :
    (playingAt 1).phase = Phase.playing ∧ (playingAt 1).timeLeft = 1 ∧
    (tick (playingAt 1)).phase = Phase.over ∧
    (tick (playingAt 1)).timeLeft = 0 ∧
    (tick (playingAt 1)).currentProblem = some sampleProblem := by
  decide

/-- C4, amended: one tick of a playing session with 1 second left yields
    the over phase with the clock at 0 and leaves `currentProblem`
    unchanged (still present), not absent. -/
theorem C4_tick_at_one (s : GameState) (hph : s.phase = Phase.playing)
    (ht : s.timeLeft = 1) :
    (tick s).phase = Phase.over ∧ (tick s).timeLeft = 0 ∧
    (tick s).currentProblem = s.currentProblem := by
  obtain ⟨hS, hO⟩ := (phase_playing_iff s).mp hph
  refine ⟨?_, ?_, ?_⟩ <;> simp [tick, GameState.phase, hS, hO, ht]

theorem C4_tick_at_one_witness :
    (tick (playingAt 1)).phase = Phase.over ∧
    (tick (playingAt 1)).timeLeft = 0 ∧
    (tick (playingAt 1)).currentProblem = (playingAt 1).currentProblem :=
  C4_tick_at_one (playingAt 1) (by decide) (by decide)

/-- C5, counterexample: in the concrete playing state with 60 seconds left,
    submitting the unparsable input "abc" leaves the score alone but moves
    the clock from 60 to 50 — the call is not free of effect on
    timeRemaining. -/
theorem C5_counterexample :
    parseIntJS "abc" = none ∧
    (playingAt 60).phase = Phase.playing ∧
    (handleAnswerSubmit (playingAt 60) "abc" 3 4 0).score = (playingAt 60).score ∧
    (handleAnswerSubmit (playingAt 60) "abc" 3 4 0).timeLeft = 50 ∧
    (handleAnswerSubmit (playingAt 60) "abc" 3 4 0).timeLeft ≠
      (playingAt 60).timeLeft := by
  decide

/-- C5, amended: an unparsable raw input submitted in the playing phase is
    treated as an incorrect answer: the score is unchanged but the clock
    drops to max(0, timeRemaining - 10) and the incorrect feedback is
    emitted. -/
theorem C5_unparsable_submit (s : GameState) (p : Problem) (raw : String)
    (n1 n2 : Int) (k : Nat)
    (hp : s.currentProblem = some p) (hph : s.phase = Phase.playing)
    (hraw : parseIntJS raw = none) :
    (handleAnswerSubmit s raw n1 n2 k).score = s.score ∧
    (handleAnswerSubmit s raw n1 n2 k).timeLeft = max 0 (s.timeLeft - 10) ∧
    (handleAnswerSubmit s raw n1 n2 k).message = incorrectMessage p.answer := by
  obtain ⟨hS, hO⟩ := (phase_playing_iff s).mp hph
  have hc : parseIntJS raw ≠ some p.answer := by simp [hraw]
  rw [handleAnswerSubmit_incorrect_eq s p raw n1 n2 k hp hS hO hc]
  exact ⟨rfl, rfl, rfl⟩

theorem C5_unparsable_submit_witness :
    (handleAnswerSubmit (playingAt 60) "abc" 3 4 0).score = (playingAt 60).score ∧
    (handleAnswerSubmit (playingAt 60) "abc" 3 4 0).timeLeft =
      max 0 ((playingAt 60).timeLeft - 10) ∧
    (handleAnswerSubmit (playingAt 60) "abc" 3 4 0).message =
      incorrectMessage sampleProblem.answer :=
  C5_unparsable_submit (playingAt 60) sampleProblem "abc" 3 4 0 rfl (by decide)
    (by decide)

/-- C6: for every mode and in-range operand draws, the generated problem
    has a non-negative integer answer; a subtraction problem satisfies
    operandA ≥ operandB; a division problem's operandA is the product of
    the raw operands and hence an exact multiple of operandB. -/
theorem C6_generated_problem (pt : ProblemType) (n1 n2 : Int) (k : Nat)
    (hn1 : 1 ≤ n1) (hn1u : n1 ≤ 10) (hn2 : 1 ≤ n2) (hn2u : n2 ≤ 10) :
    0 ≤ (generateProblem pt n1 n2 k).answer ∧
    ((generateProblem pt n1 n2 k).operator = Op.sub →
      (generateProblem pt n1 n2 k).num2 ≤ (generateProblem pt n1 n2 k).num1) ∧
    ((generateProblem pt n1 n2 k).operator = Op.div →
      (generateProblem pt n1 n2 k).num1 = n1 * n2 ∧
      (generateProblem pt n1 n2 k).num1 % (generateProblem pt n1 n2 k).num2 = 0) := by
  unfold generateProblem
  dsimp only
  cases hop : (operatorsFor pt).getD (k % (operatorsFor pt).length) Op.add with
  | add =>
    dsimp only
    refine ⟨by omega, ?_, ?_⟩ <;> intro hcontra <;> exact nomatch hcontra
  | sub =>
    dsimp only
    split <;> dsimp only <;>
      refine ⟨by omega, fun _ => by omega, ?_⟩ <;> intro hcontra <;> exact nomatch hcontra
  | mul =>
    dsimp only
    refine ⟨mul_nonneg (by omega) (by omega), ?_, ?_⟩ <;>
      intro hcontra <;> exact nomatch hcontra
  | div =>
    dsimp only
    have hdiv : n1 * n2 / n2 = n1 := Int.mul_ediv_cancel n1 (by omega)
    refine ⟨by rw [hdiv]; omega, ?_, fun _ => ⟨rfl, Int.mul_emod_left n1 n2⟩⟩
    intro hcontra
    exact nomatch hcontra

theorem C6_generated_problem_witness :
    0 ≤ (generateProblem ProblemType.random 3 4 0).answer ∧
    ((generateProblem ProblemType.random 3 4 0).operator = Op.sub →
      (generateProblem ProblemType.random 3 4 0).num2 ≤
        (generateProblem ProblemType.random 3 4 0).num1) ∧
    ((generateProblem ProblemType.random 3 4 0).operator = Op.div →
      (generateProblem ProblemType.random 3 4 0).num1 = 3 * 4 ∧
      (generateProblem ProblemType.random 3 4 0).num1 %
        (generateProblem ProblemType.random 3 4 0).num2 = 0) :=
  C6_generated_problem ProblemType.random 3 4 0 (by decide) (by decide) (by decide)
    (by decide)

/-- C7: submitting a raw input that parses to the current problem's answer
    in the playing phase increments the score by 1, extends the clock by
    exactly 30 seconds, emits the correct feedback, and installs the
    freshly generated problem. -/
theorem C7_correct_submit (s : GameState) (p : Problem) (raw : String)
    (n1 n2 : Int) (k : Nat)
    (hp : s.currentProblem = some p) (hph : s.phase = Phase.playing)
    (hv : parseIntJS raw = some p.answer) :
    (handleAnswerSubmit s raw n1 n2 k).score = s.score + 1 ∧
    (handleAnswerSubmit s raw n1 n2 k).timeLeft = s.timeLeft + 30 ∧
    (handleAnswerSubmit s raw n1 n2 k).message = correctMessage ∧
    (handleAnswerSubmit s raw n1 n2 k).currentProblem =
      some (generateProblem s.problemType n1 n2 k) := by
  obtain ⟨hS, hO⟩ := (phase_playing_iff s).mp hph
  rw [handleAnswerSubmit_correct_eq s p raw n1 n2 k hp hS hO hv]
  exact ⟨rfl, rfl, rfl, rfl⟩

theorem C7_correct_submit_witness :
    (handleAnswerSubmit (playingAt 60) "7" 3 4 0).score = (playingAt 60).score + 1 ∧
    (handleAnswerSubmit (playingAt 60) "7" 3 4 0).timeLeft =
      (playingAt 60).timeLeft + 30 ∧
    (handleAnswerSubmit (playingAt 60) "7" 3 4 0).message = correctMessage ∧
    (handleAnswerSubmit (playingAt 60) "7" 3 4 0).currentProblem =
      some (generateProblem (playingAt 60).problemType 3 4 0) ∧
    (handleAnswerSubmit (playingAt 60) "7" 3 4 0).score = 1 ∧
    (handleAnswerSubmit (playingAt 60) "7" 3 4 0).timeLeft = 90 :=
  ⟨(C7_correct_submit (playingAt 60) sampleProblem "7" 3 4 0 rfl (by decide)
      (by decide)).1,
   (C7_correct_submit (playingAt 60) sampleProblem "7" 3 4 0 rfl (by decide)
      (by decide)).2.1,
   (C7_correct_submit (playingAt 60) sampleProblem "7" 3 4 0 rfl (by decide)
      (by decide)).2.2.1,
   (C7_correct_submit (playingAt 60) sampleProblem "7" 3 4 0 rfl (by decide)
      (by decide)).2.2.2,
   by decide, by decide⟩

/-- C8: `resetGame` from any state yields the idle phase with score 0, a
    60-second clock, no current problem, and a cleared feedback message. -/
theorem C8_reset (s : GameState) :
    (resetGame s).phase = Phase.idle ∧ (resetGame s).score = 0 ∧
    (resetGame s).timeLeft = 60 ∧ (resetGame s).currentProblem = none ∧
    (resetGame s).message = "" :=
  ⟨rfl, rfl, rfl, rfl, rfl⟩

/-- C9: a tick or a submit (with any raw input) delivered in the idle or
    over phase leaves the entire state — hence every field — unchanged. -/
theorem C9_frame (s : GameState) (raw : String) (n1 n2 : Int) (k : Nat)
    (h : s.phase = Phase.idle ∨ s.phase = Phase.over) :
    tick s = s ∧ handleAnswerSubmit s raw n1 n2 k = s := by
  have hg : s.gameStarted = false ∨ s.isGameOver = true := by
    rcases h with h | h
    · exact Or.inl ((phase_idle_iff s).mp h).1
    · exact Or.inr ((phase_over_iff s).mp h)
  constructor
  · unfold tick
    rcases hg with hg | hg <;> simp [hg]
  · unfold handleAnswerSubmit
    cases hp : s.currentProblem with
    | none => rfl
    | some p => rcases hg with hg | hg <;> simp [hg]

theorem C9_frame_witness :
    tick initState = initState ∧
    handleAnswerSubmit initState "5" 3 4 0 = initState :=
  C9_frame initState "5" 3 4 0 (Or.inl (by decide))

/-- C10: in every reachable state the two phase flags are never both
    raised, so the flag pair always denotes exactly one of the three
    phases: idle (both false), playing (gameStarted only), or over
    (isGameOver only). -/
theorem C10_flags_exclusive (s : GameState) (h : Reachable s) :
    ¬(s.gameStarted = true ∧ s.isGameOver = true) ∧
    ((s.gameStarted = false ∧ s.isGameOver = false ∧ s.phase = Phase.idle) ∨
     (s.gameStarted = true ∧ s.isGameOver = false ∧ s.phase = Phase.playing) ∨
     (s.gameStarted = false ∧ s.isGameOver = true ∧ s.phase = Phase.over)) := by
  have h1 := (reachable_inv h).1
  refine ⟨h1, ?_⟩
  cases hS : s.gameStarted with
  | false =>
    cases hO : s.isGameOver with
    | false => exact Or.inl ⟨rfl, rfl, (phase_idle_iff s).mpr ⟨hS, hO⟩⟩
    | true => exact Or.inr (Or.inr ⟨rfl, rfl, (phase_over_iff s).mpr hO⟩)
  | true =>
    cases hO : s.isGameOver with
    | false => exact Or.inr (Or.inl ⟨rfl, rfl, (phase_playing_iff s).mpr ⟨hS, hO⟩⟩)
    | true => exact absurd ⟨hS, hO⟩ h1

theorem C10_flags_exclusive_witness :
    ¬(initState.gameStarted = true ∧ initState.isGameOver = true) ∧
    ((initState.gameStarted = false ∧ initState.isGameOver = false ∧
        initState.phase = Phase.idle) ∨
     (initState.gameStarted = true ∧ initState.isGameOver = false ∧
        initState.phase = Phase.playing) ∨
     (initState.gameStarted = false ∧ initState.isGameOver = true ∧
        initState.phase = Phase.over)) :=
  C10_flags_exclusive initState Reachable.init
